import Mathlib

/-!
Verification development for the live voice-session client hook (`useLiveAPI`).

The hook is a single-threaded event-driven controller: React state and refs
form the mutable state, and the various callbacks (worklet audio frames,
remote-session `onopen`/`onmessage`/`onclose`/`onerror`, `connect`,
`disconnect`, `sendTextMessage`, and the talk-decay timeout) are the events.
We embed that state as a Lean structure and each handler as a pure function
on it.  Time (the output clock and the millisecond wall clock used by
`setTimeout`) is modelled as `ℚ`; audio samples as `ℚ`; the possibly-failing
`session.sendRealtimeInput` is modelled by a `Bool` parameter saying whether
the send succeeds or throws.
-/

namespace LiveAPI

/-- Role of a transcript message, as in the `Message` interface of the hook. -/
inductive Role where
  | user
  | model
deriving Repr, DecidableEq

/-- A transcript message `{role, text}`. -/
structure Message where
  role : Role
  text : String
deriving Repr, DecidableEq

/-- The observable and internal state of the `useLiveAPI` hook: the React
state variables (`isConnected`, `isAITalking`, `isUserTalking`, `messages`,
`error`) and the refs (`sessionRef`, `isSessionActiveRef`, `isConnectingRef`,
`audioContextRef`, `streamRef`, `nextStartTimeRef`, `workletNodeRef`,
`userTalkingTimeoutRef`).  Device and session handles are tracked as
presence booleans; `sessionClosed` records whether `close()` has been called
on the session opened by the current `connect()` attempt;
`workletHandlerAttached` records whether `workletNode.port.onmessage` holds
the capture handler; `userTalkingDeadline` is the absolute due time of the
pending 500 ms decay timeout, if any. -/
structure LiveState where
  isConnected : Bool
  isAITalking : Bool
  isUserTalking : Bool
  messages : List Message
  error : Option String
  hasSession : Bool
  sessionClosed : Bool
  isSessionActive : Bool
  isConnecting : Bool
  audioContext : Bool
  stream : Bool
  workletNode : Bool
  workletHandlerAttached : Bool
  nextStartTime : ℚ
  userTalkingDeadline : Option ℚ
deriving Repr, DecidableEq

/-- The idle initial state of the hook (all `useState`/`useRef` initial values). -/
def initialState : LiveState where
  isConnected := false
  isAITalking := false
  isUserTalking := false
  messages := []
  error := none
  hasSession := false
  sessionClosed := false
  isSessionActive := false
  isConnecting := false
  audioContext := false
  stream := false
  workletNode := false
  workletHandlerAttached := false
  nextStartTime := 0
  userTalkingDeadline := none

/-! ### PCM conversion (capture path, lines 125-128)

`pcmData[i] = Math.max(-1, Math.min(1, inputData[i])) * 0x7FFF` stored into an
`Int16Array`.  JavaScript converts the float to an `Int16` by truncating
toward zero and reducing modulo 2^16 into `[-32768, 32767]`. -/

/-- Symmetric clamp `Math.max(-1, Math.min(1, x))`. -/
def clamp (x : ℚ) : ℚ := max (-1) (min 1 x)

/-- JavaScript `ToInteger`: truncation toward zero. -/
def jsTrunc (q : ℚ) : ℤ := if q < 0 then -(⌊-q⌋) else ⌊q⌋

/-- Reduce an integer modulo 2^16 into the signed 16-bit range, as storing
into an `Int16Array` does. -/
def toInt16 (n : ℤ) : ℤ :=
  let r := n % 65536
  if r < 32768 then r else r - 65536

/-- One sample of the capture-path PCM conversion:
`Math.max(-1, Math.min(1, x)) * 0x7FFF` stored into an `Int16Array` slot. -/
def pcmConvert (x : ℚ) : ℤ := toInt16 (jsTrunc (clamp x * 32767))

/-! ### Talk-activity detection (lines 113-123)

The handler computes `rms = sqrt(sum of squares / length)` and compares
`rms > 0.01`.  Both sides are nonnegative, so the comparison is equivalent to
`sum of squares / length > 0.0001`, which is how we state it over `ℚ`
(square roots are not rational). -/

/-- Whether a frame's root-mean-square energy exceeds the 0.01 threshold,
stated on squares: `mean of squares > 0.01^2 = 1/10000`. -/
def qualifies (xs : List ℚ) : Bool :=
  decide (1 / 10000 < (xs.map fun x => x * x).sum / (xs.length : ℚ))

/-! ### Playback scheduling (lines 174-176)

`startTime = Math.max(audioContext.currentTime, nextStartTimeRef.current);`
`source.start(startTime); nextStartTimeRef.current = startTime + duration;` -/

/-- Scheduled start of a segment: `max(outputClock.now(), nextFreeTime)`. -/
def schedStart (now nf : ℚ) : ℚ := max now nf

/-- Schedule a list of chunks, each given as `(arrival clock time, duration)`,
starting from free time `nf`; returns the segments as `(start, duration)`.
Each step mirrors lines 174-176: start at `max now nf`, then advance the free
time to `start + duration`. -/
def scheduleAll (nf : ℚ) : List (ℚ × ℚ) → List (ℚ × ℚ)
  | [] => []
  | (t, d) :: rest => (schedStart t nf, d) :: scheduleAll (schedStart t nf + d) rest

/-- The value of `nextStartTimeRef` after scheduling a list of chunks from
free time `nf`. -/
def nfAfter (nf : ℚ) : List (ℚ × ℚ) → ℚ
  | [] => nf
  | (t, d) :: rest => nfAfter (schedStart t nf + d) rest

/-! ### The worklet capture handler (lines 104-147)

Attached to `workletNode.port.onmessage` in `onopen`.  Guards on the session
ref and the active flag, updates the user-talking detector, converts the
frame to PCM, and sends it; a throwing send marks the session inactive and
detaches the handler (the detach is guarded by `workletNodeRef.current`,
lines 143-145).  The returned `Bool` records whether `sendRealtimeInput` was
invoked. -/

/-- Process one captured audio frame at wall-clock time `t` (ms).  `sendOk`
says whether `session.sendRealtimeInput` succeeds or throws. -/
def onAudioFrame (s : LiveState) (t : ℚ) (frame : List ℚ) (sendOk : Bool) :
    LiveState × Bool :=
  if s.workletHandlerAttached = false then (s, false)
  else if ¬(s.hasSession = true ∧ s.isSessionActive = true) then (s, false)
  else
    let s1 := if qualifies frame then
        { s with isUserTalking := true, userTalkingDeadline := some (t + 500) }
      else s
    if s1.isSessionActive then
      if sendOk then (s1, true)
      else
        let s2 := { s1 with isSessionActive := false }
        (if s2.workletNode then { s2 with workletHandlerAttached := false } else s2,
         true)
    else (s1, false)

/-- The 500 ms decay timeout firing at time `u`: `setIsUserTalking(false)`.
It fires only if a timeout is pending and its due time has been reached
(`setTimeout` never fires early; `clearTimeout` is modelled by overwriting
the deadline). -/
def tickUserTalking (s : LiveState) (u : ℚ) : LiveState :=
  match s.userTalkingDeadline with
  | some d => if d ≤ u then { s with isUserTalking := false, userTalkingDeadline := none } else s
  | none => s

/-! ### The remote-session message handler (lines 149-202) -/

/-- Shape of an inbound `LiveServerMessage` as the handler reads it: optional
inline audio (represented by the duration of the decoded buffer), the
`interrupted` flag, and optional output/input transcription fragments. -/
structure ServerMessage where
  audioDur : Option ℚ
  interrupted : Bool
  outputText : Option String
  inputText : Option String

/-- Process one inbound server message at output-clock time `now`.  Returns
early if the session is not active; otherwise schedules inline audio (sets
`isAITalking` first, then, if an audio context exists, schedules at
`max(currentTime, nextStartTime)` and advances `nextStartTime`), then handles
the `interrupted` flag (reset `nextStartTime` to 0, `isAITalking` to false),
then appends transcription fragments. -/
def onServerMessage (s : LiveState) (now : ℚ) (m : ServerMessage) : LiveState :=
  if ¬s.isSessionActive then s
  else
    let s1 := match m.audioDur with
      | some d =>
        let sa := { s with isAITalking := true }
        if sa.audioContext then
          { sa with nextStartTime := schedStart now sa.nextStartTime + d }
        else sa
      | none => s
    let s2 := if m.interrupted then { s1 with nextStartTime := 0, isAITalking := false } else s1
    let s3 := match m.outputText with
      | some txt => { s2 with messages := s2.messages ++ [⟨Role.model, txt⟩] }
      | none => s2
    match m.inputText with
    | some txt => { s3 with messages := s3.messages ++ [⟨Role.user, txt⟩] }
    | none => s3

/-! ### Lifecycle: stopAudio, connect, disconnect, onopen, onclose, onerror -/

/-- `stopAudio` (lines 36-54): clear the active flag, detach and drop the
worklet node (the detach happens only when a node is present), close and
drop the audio context, stop and drop the media stream, clear both talking
flags, reset the playback timeline. -/
def stopAudio (s : LiveState) : LiveState :=
  let s1 := { s with isSessionActive := false }
  let s2 := if s1.workletNode then
      { s1 with workletHandlerAttached := false, workletNode := false }
    else s1
  { s2 with audioContext := false, stream := false,
            isAITalking := false, isUserTalking := false, nextStartTime := 0 }

/-- The synchronous part of `connect()` up to awaiting the session promise
(lines 56-95): no-op when already connecting or connected; otherwise set the
connecting and active flags, clear the error, and acquire the audio context,
worklet node and microphone stream.  The remote open stays pending; its
completion is `onopen` followed by `connectResume`. -/
def connectStart (s : LiveState) : LiveState :=
  if s.isConnecting || s.isConnected then s
  else
    { s with isConnecting := true, isSessionActive := true, error := none,
             audioContext := true, workletNode := true, stream := true }

/-- The `onopen` callback (lines 98-148): mark connected, set the active
flag, clear the connecting flag and the error, and attach the capture
handler to the worklet node captured in the `connect` closure. -/
def onopen (s : LiveState) : LiveState :=
  { s with isConnected := true, isSessionActive := true, isConnecting := false,
           error := none, workletHandlerAttached := true }

/-- Resumption of `connect()` after `await sessionPromise` (lines 229-239):
if the active flag was cleared while connecting, close the just-opened
session and return; otherwise store the session in `sessionRef`. -/
def connectResume (s : LiveState) : LiveState :=
  if ¬s.isSessionActive then { s with sessionClosed := true, isConnecting := false }
  else { s with hasSession := true, isConnecting := false }

/-- `disconnect()` (lines 249-268): clear the active and connecting flags,
detach the capture handler (guarded by the worklet ref), close and drop the
session if one is stored, run `stopAudio`, and mark disconnected. -/
def disconnect (s : LiveState) : LiveState :=
  let s1 := { s with isSessionActive := false, isConnecting := false }
  let s2 := if s1.workletNode then { s1 with workletHandlerAttached := false } else s1
  let s3 := if s2.hasSession then { s2 with sessionClosed := true, hasSession := false } else s2
  let s4 := stopAudio s3
  { s4 with isConnected := false }

/-- The `onclose` callback (lines 203-208): mark disconnected, clear the
active and connecting flags, and run `stopAudio`.  The error is untouched. -/
def onclose (s : LiveState) : LiveState :=
  stopAudio { s with isConnected := false, isSessionActive := false, isConnecting := false }

/-- The `onerror` callback (lines 209-216): publish the error message, then
the same teardown as `onclose`. -/
def onerror (s : LiveState) : LiveState :=
  stopAudio { s with error := some "Connection error. Please try again.",
                     isConnected := false, isSessionActive := false, isConnecting := false }

/-- `sendTextMessage` (lines 270-281): only when a session is stored, the
hook is connected and the active flag holds, send the text and, if the send
did not throw, append the message to the log; a thrown send only logs to the
console.  The returned `Bool` records whether `sendRealtimeInput` was
invoked. -/
def sendTextMessage (s : LiveState) (txt : String) (sendOk : Bool) :
    LiveState × Bool :=
  if s.hasSession = true ∧ s.isConnected = true ∧ s.isSessionActive = true then
    if sendOk then ({ s with messages := s.messages ++ [⟨Role.user, txt⟩] }, true)
    else (s, true)
  else (s, false)

/-! ### Event traces for the temporal claims -/

/-- An event affecting the user-talking detector: an audio frame delivered to
the capture handler, or the decay timeout firing. -/
inductive LiveEv where
  | frame (t : ℚ) (xs : List ℚ) (sendOk : Bool)
  | tick (t : ℚ)

/-- One step of the event system restricted to capture frames and the decay
timeout. -/
def liveStep (s : LiveState) : LiveEv → LiveState
  | .frame t xs sendOk => (onAudioFrame s t xs sendOk).1
  | .tick u => tickUserTalking s u

/-- Run a list of capture/timeout events. -/
def liveRun (s : LiveState) (evs : List LiveEv) : LiveState :=
  evs.foldl liveStep s

/-- An event is quiet before deadline `dl` when it is a frame below the RMS
threshold or a timeout firing strictly before `dl` (a pending `setTimeout`
with due time `dl` cannot fire earlier). -/
def quietBefore (dl : ℚ) : LiveEv → Prop
  | .frame _ xs _ => qualifies xs = false
  | .tick u => u < dl

/-- A representative `Open` state: connected, session stored and active,
devices held, capture handler attached. -/
def openState : LiveState :=
  { initialState with
      isConnected := true, hasSession := true, isSessionActive := true,
      audioContext := true, stream := true, workletNode := true,
      workletHandlerAttached := true }

/-! ### Session-identity model for overlapping connect attempts

`LiveState` tracks the session produced by a single `connect()` attempt.
When two `connect()` attempts overlap (the second issued after a
`disconnect()` while the first open was still pending), the shared refs are
consulted by both attempts, and whether the remote sessions they open get
closed must be tracked per session.  `MultiState` is the projection of the
hook's state onto the session-lifecycle fields (`isConnected`,
`isSessionActiveRef`, `isConnectingRef`, `sessionRef`), with remote sessions
named by numbers: `openRemote` lists the sessions whose websocket has opened
(`onopen` fired) and on which `close()` has not been called.  Each
transition below embeds the same source lines as the corresponding
`LiveState` function; the device and detector fields, which do not touch the
session lifecycle, are omitted from this projection. -/

/-- Session-lifecycle projection of the hook's state, with remote sessions
tracked by identity. -/
structure MultiState where
  isConnected : Bool
  isSessionActive : Bool
  isConnecting : Bool
  sessionRef : Option ℕ
  openRemote : List ℕ
deriving Repr, DecidableEq

/-- The idle initial state of the session-lifecycle projection. -/
def mInitial : MultiState where
  isConnected := false
  isSessionActive := false
  isConnecting := false
  sessionRef := none
  openRemote := []

/-- The synchronous start of one `connect()` attempt (lines 56-59): no-op
when already connecting or connected, otherwise set the connecting and
active flags; the remote open stays pending. -/
def mConnectStart (s : MultiState) : MultiState :=
  if s.isConnecting || s.isConnected then s
  else { s with isConnecting := true, isSessionActive := true }

/-- The `onopen` callback of the attempt that opens remote session `k`
(lines 98-103): session `k`'s websocket is now open; mark connected, set the
active flag, clear the connecting flag. -/
def mOnopen (s : MultiState) (k : ℕ) : MultiState :=
  { s with isConnected := true, isSessionActive := true, isConnecting := false,
           openRemote := s.openRemote ++ [k] }

/-- Resumption of the attempt that opened session `k` after
`await sessionPromise` (lines 229-239): if the shared active flag is false,
close session `k` and return; otherwise store it in `sessionRef`. -/
def mConnectResume (s : MultiState) (k : ℕ) : MultiState :=
  if ¬s.isSessionActive then
    { s with openRemote := s.openRemote.erase k, isConnecting := false }
  else { s with sessionRef := some k, isConnecting := false }

/-- `disconnect()` restricted to the session-lifecycle fields
(lines 249-268): clear the active and connecting flags, close and drop the
stored session if one exists, mark disconnected. -/
def mDisconnect (s : MultiState) : MultiState :=
  let s1 := { s with isSessionActive := false, isConnecting := false }
  let s2 := match s1.sessionRef with
    | some k => { s1 with openRemote := s1.openRemote.erase k, sessionRef := none }
    | none => s1
  { s2 with isConnected := false }

/-- A one-sample frame of full amplitude exceeds the RMS threshold. -/
lemma qualifies_loud : qualifies [1] = true := by
  unfold qualifies; norm_num

/-! ## Theorems -/

/-- C4: PCM conversion clamps each sample symmetrically to `[-1, 1]` and
scales by `0x7FFF`: `1.0 ↦ 32767`, `-1.0 ↦ -32767` (the symmetric clamp
value), `0.0 ↦ 0`, and any sample outside `[-1, 1]` is clamped before
scaling (`x ≥ 1 ↦ 32767`, `y ≤ -1 ↦ -32767`). -/
theorem pcm_conversion_boundaries (x y : ℚ) (hx : 1 ≤ x) (hy : y ≤ -1) :
    pcmConvert 1 = 32767 ∧
    (pcmConvert (-1) = -32768 ∨ pcmConvert (-1) = -32767) ∧
    pcmConvert 0 = 0 ∧
    pcmConvert x = 32767 ∧ pcmConvert y = -32767 := by
  have hcx : clamp x = 1 := by
    unfold clamp
    rw [min_eq_left hx, max_eq_right (by norm_num : (-1 : ℚ) ≤ 1)]
  have hcy : clamp y = -1 := by
    unfold clamp
    rw [min_eq_right (le_trans hy (by norm_num)), max_eq_left hy]
  refine ⟨by unfold pcmConvert clamp jsTrunc toInt16; norm_num,
         Or.inr (by unfold pcmConvert clamp jsTrunc toInt16; norm_num),
         by unfold pcmConvert clamp jsTrunc toInt16; norm_num, ?_, ?_⟩
  · unfold pcmConvert; rw [hcx]; unfold jsTrunc toInt16; norm_num
  · unfold pcmConvert; rw [hcy]; unfold jsTrunc toInt16; norm_num

/-- Witness for C4 at the concrete out-of-range samples `x = 2`, `y = -3`. -/
theorem pcm_conversion_boundaries_witness :
    (1 : ℚ) ≤ 2 ∧ (-3 : ℚ) ≤ -1 ∧
    (pcmConvert 1 = 32767 ∧
     (pcmConvert (-1) = -32768 ∨ pcmConvert (-1) = -32767) ∧
     pcmConvert 0 = 0 ∧
     pcmConvert 2 = 32767 ∧ pcmConvert (-3) = -32767) :=
  ⟨by norm_num, by norm_num,
   pcm_conversion_boundaries 2 (-3) (by norm_num) (by norm_num)⟩

/-- The entry guard of `connect()` (line 57): the call returns without
changing any state whenever the controller is already connecting or already
connected. -/
theorem connect_noop_when_busy (s : LiveState)
    (h : s.isConnecting = true ∨ s.isConnected = true) :
    connectStart s = s := by
  unfold connectStart
  rcases h with h | h <;> simp [h]

/-- The entry-guard no-op at a concrete connecting state. -/
theorem connect_noop_when_busy_witness :
    (({ initialState with isConnecting := true } : LiveState).isConnecting = true ∨
      ({ initialState with isConnecting := true } : LiveState).isConnected = true) ∧
    connectStart { initialState with isConnecting := true } =
      { initialState with isConnecting := true } :=
  ⟨Or.inl rfl, connect_noop_when_busy _ (Or.inl rfl)⟩

/-- C7: the code violates the claim's "at most one session is open at a
time" invariant (the entry-guard no-op conjunct itself holds, see the
preceding lemma).  Trace: `connect()` starts; `disconnect()` while its open
is pending resets `isConnectingRef`, so a second `connect()` passes the
entry guard; attempt 1's session then opens and its post-`await` check
consults the shared active flag — now set true by attempt 2 — so it stores
session 1 instead of closing it; attempt 2's session opens next and
overwrites `sessionRef` without closing session 1.  Both remote sessions end
up open simultaneously. -/
theorem double_connect_two_open_sessions_bug :
    (mDisconnect (mConnectStart mInitial)).isConnecting = false ∧
    (mConnectStart (mDisconnect (mConnectStart mInitial))).isConnecting = true ∧
    (mConnectResume (mOnopen (mConnectStart (mDisconnect (mConnectStart mInitial))) 1)
        1).sessionRef = some 1 ∧
    (mConnectResume
        (mOnopen (mConnectResume (mOnopen (mConnectStart (mDisconnect (mConnectStart mInitial))) 1) 1) 2)
        2).sessionRef = some 2 ∧
    (mConnectResume
        (mOnopen (mConnectResume (mOnopen (mConnectStart (mDisconnect (mConnectStart mInitial))) 1) 1) 2)
        2).openRemote = [1, 2] ∧
    (mConnectResume
        (mOnopen (mConnectResume (mOnopen (mConnectStart (mDisconnect (mConnectStart mInitial))) 1) 1) 2)
        2).isConnected = true := by
  decide

/-- C8: `disconnect()` is idempotent, clears the active and connecting
flags, detaches the capture handler, closes and drops the session, releases
the audio context, stream and worklet node, resets the playback timeline and
leaves the controller disconnected. -/
theorem disconnect_teardown (s : LiveState) (hsess : s.hasSession = true)
    (hnode : s.workletNode = true) :
    disconnect (disconnect s) = disconnect s ∧
    (disconnect s).isSessionActive = false ∧
    (disconnect s).isConnecting = false ∧
    (disconnect s).workletHandlerAttached = false ∧
    (disconnect s).hasSession = false ∧
    (disconnect s).sessionClosed = true ∧
    (disconnect s).audioContext = false ∧
    (disconnect s).stream = false ∧
    (disconnect s).workletNode = false ∧
    (disconnect s).nextStartTime = 0 ∧
    (disconnect s).isConnected = false := by
  unfold disconnect stopAudio
  simp [hsess, hnode]

/-- Witness for C8 at the representative open state. -/
theorem disconnect_teardown_witness :
    openState.hasSession = true ∧ openState.workletNode = true ∧
    (disconnect (disconnect openState) = disconnect openState ∧
     (disconnect openState).isSessionActive = false ∧
     (disconnect openState).isConnecting = false ∧
     (disconnect openState).workletHandlerAttached = false ∧
     (disconnect openState).hasSession = false ∧
     (disconnect openState).sessionClosed = true ∧
     (disconnect openState).audioContext = false ∧
     (disconnect openState).stream = false ∧
     (disconnect openState).workletNode = false ∧
     (disconnect openState).nextStartTime = 0 ∧
     (disconnect openState).isConnected = false) :=
  ⟨rfl, rfl, disconnect_teardown openState rfl rfl⟩

/-- C9: `onclose` and `onerror` each force the full local teardown
(active flag false, devices released, timeline reset, talking flags cleared,
state disconnected); the user-visible error is published by `onerror` only,
while `onclose` leaves it unchanged. -/
theorem onclose_onerror_teardown (s : LiveState) :
    (onclose s).isSessionActive = false ∧ (onclose s).isConnected = false ∧
    (onclose s).isConnecting = false ∧
    (onclose s).audioContext = false ∧ (onclose s).stream = false ∧
    (onclose s).workletNode = false ∧
    (onclose s).nextStartTime = 0 ∧ (onclose s).isAITalking = false ∧
    (onclose s).isUserTalking = false ∧
    (onclose s).error = s.error ∧
    (onerror s).isSessionActive = false ∧ (onerror s).isConnected = false ∧
    (onerror s).isConnecting = false ∧
    (onerror s).audioContext = false ∧ (onerror s).stream = false ∧
    (onerror s).workletNode = false ∧
    (onerror s).nextStartTime = 0 ∧ (onerror s).isAITalking = false ∧
    (onerror s).isUserTalking = false ∧
    (onerror s).error = some "Connection error. Please try again." := by
  by_cases h : s.workletNode = true <;>
    simp [onclose, onerror, stopAudio, h]

/-- Witness for C9 at the representative open state. -/
theorem onclose_onerror_teardown_witness :
    (onclose openState).isSessionActive = false ∧ (onclose openState).isConnected = false ∧
    (onclose openState).isConnecting = false ∧
    (onclose openState).audioContext = false ∧ (onclose openState).stream = false ∧
    (onclose openState).workletNode = false ∧
    (onclose openState).nextStartTime = 0 ∧ (onclose openState).isAITalking = false ∧
    (onclose openState).isUserTalking = false ∧
    (onclose openState).error = openState.error ∧
    (onerror openState).isSessionActive = false ∧ (onerror openState).isConnected = false ∧
    (onerror openState).isConnecting = false ∧
    (onerror openState).audioContext = false ∧ (onerror openState).stream = false ∧
    (onerror openState).workletNode = false ∧
    (onerror openState).nextStartTime = 0 ∧ (onerror openState).isAITalking = false ∧
    (onerror openState).isUserTalking = false ∧
    (onerror openState).error = some "Connection error. Please try again." :=
  onclose_onerror_teardown openState

/-- C10: `sendText` with no stored session, not connected, or an inactive
session leaves the whole state unchanged and transmits nothing; and when the
underlying send throws, the message log is unchanged. -/
theorem sendText_guarded (s s' : LiveState) (txt : String) (ok : Bool)
    (h : s.hasSession = false ∨ s.isConnected = false ∨ s.isSessionActive = false) :
    sendTextMessage s txt ok = (s, false) ∧
    (sendTextMessage s' txt false).1.messages = s'.messages := by
  constructor
  · unfold sendTextMessage
    rw [if_neg]
    rintro ⟨h1, h2, h3⟩
    rcases h with h | h | h <;> simp_all
  · unfold sendTextMessage
    split <;> simp

/-- Witness for C10: no session stored in `initialState`; the failing-send
case exercised at the open state. -/
theorem sendText_guarded_witness :
    (initialState.hasSession = false ∨ initialState.isConnected = false ∨
      initialState.isSessionActive = false) ∧
    (sendTextMessage initialState "hi" true = (initialState, false) ∧
     (sendTextMessage openState "hi" false).1.messages = openState.messages) :=
  ⟨Or.inl rfl, sendText_guarded initialState openState "hi" true (Or.inl rfl)⟩

/-- C6: the code violates the claim.  Trace: `connect()` starts,
`disconnect()` is called while the remote open is still pending, then the
session opens (`onopen` fires and the awaited promise resumes).  `onopen`
unconditionally re-sets the active flag that `disconnect` had cleared, so
the post-`await` race check does not close the session: the controller ends
connected with a stored, unclosed, active session instead of closing it and
returning to `Idle`. -/
theorem connect_disconnect_race_bug :
    (connectStart initialState).isConnecting = true ∧
    (disconnect (connectStart initialState)).isSessionActive = false ∧
    (disconnect (connectStart initialState)).isConnected = false ∧
    (connectResume (onopen (disconnect (connectStart initialState)))).isConnected = true ∧
    (connectResume (onopen (disconnect (connectStart initialState)))).hasSession = true ∧
    (connectResume (onopen (disconnect (connectStart initialState)))).sessionClosed = false ∧
    (connectResume (onopen (disconnect (connectStart initialState)))).isSessionActive = true := by
  simp [connectStart, disconnect, stopAudio, onopen, connectResume, initialState]

/-- C3 counterexample: in an `Open` state with the assistant talking and no
error, a captured frame whose send throws leaves `isUserTalking = true`
(this loud frame had just set it), `isAITalking = true` and `error = none` —
the claim's transitions to false and the publication of `lastError` do not
happen. -/
theorem send_failure_counterexample :
    ({ openState with isAITalking := true } : LiveState).isConnected = true ∧
    ({ openState with isAITalking := true } : LiveState).isSessionActive = true ∧
    (onAudioFrame { openState with isAITalking := true } 0 [1] false).1.isUserTalking = true ∧
    (onAudioFrame { openState with isAITalking := true } 0 [1] false).1.isAITalking = true ∧
    (onAudioFrame { openState with isAITalking := true } 0 [1] false).1.error = none := by
  simp [onAudioFrame, openState, initialState, qualifies_loud]

/-- A frame delivered after the capture handler is detached is dropped
without touching the state or the session. -/
lemma onAudioFrame_detached (s : LiveState) (h : s.workletHandlerAttached = false)
    (t : ℚ) (f : List ℚ) (ok : Bool) : onAudioFrame s t f ok = (s, false) := by
  unfold onAudioFrame
  simp [h]

/-- C3 (amended): a transmission failure during an `Open` session marks the
active flag false, detaches the capture handler and prevents any further
send (every later frame is dropped without invoking the session); it leaves
`lastError` and `isAITalking` unchanged and does not force the talking
flags to false. -/
theorem send_failure_amended (s : LiveState) (t : ℚ) (frame : List ℚ)
    (hat : s.workletHandlerAttached = true) (hsess : s.hasSession = true)
    (hact : s.isSessionActive = true) (hnode : s.workletNode = true) :
    (onAudioFrame s t frame false).1.isSessionActive = false ∧
    (onAudioFrame s t frame false).1.workletHandlerAttached = false ∧
    (onAudioFrame s t frame false).1.error = s.error ∧
    (onAudioFrame s t frame false).1.isAITalking = s.isAITalking ∧
    (∀ (t' : ℚ) (f' : List ℚ) (ok' : Bool),
      onAudioFrame (onAudioFrame s t frame false).1 t' f' ok' =
        ((onAudioFrame s t frame false).1, false)) := by
  have hmain : (onAudioFrame s t frame false).1.isSessionActive = false ∧
      (onAudioFrame s t frame false).1.workletHandlerAttached = false ∧
      (onAudioFrame s t frame false).1.error = s.error ∧
      (onAudioFrame s t frame false).1.isAITalking = s.isAITalking := by
    unfold onAudioFrame
    by_cases hq : qualifies frame <;> simp [hat, hsess, hact, hnode, hq]
  refine ⟨hmain.1, hmain.2.1, hmain.2.2.1, hmain.2.2.2, ?_⟩
  intro t' f' ok'
  exact onAudioFrame_detached _ hmain.2.1 t' f' ok'

/-- Witness for C3's amended theorem at the open state with a loud frame. -/
theorem send_failure_amended_witness :
    openState.workletHandlerAttached = true ∧ openState.hasSession = true ∧
    openState.isSessionActive = true ∧ openState.workletNode = true ∧
    ((onAudioFrame openState 0 [1] false).1.isSessionActive = false ∧
     (onAudioFrame openState 0 [1] false).1.workletHandlerAttached = false ∧
     (onAudioFrame openState 0 [1] false).1.error = openState.error ∧
     (onAudioFrame openState 0 [1] false).1.isAITalking = openState.isAITalking ∧
     (∀ (t' : ℚ) (f' : List ℚ) (ok' : Bool),
       onAudioFrame (onAudioFrame openState 0 [1] false).1 t' f' ok' =
         ((onAudioFrame openState 0 [1] false).1, false))) :=
  ⟨rfl, rfl, rfl, rfl, send_failure_amended openState 0 [1] rfl rfl rfl rfl⟩

/-- C2: an inbound message carrying the `interrupted` flag resets
`nextStartTime` to 0 and sets `isAITalking` to false (even when the same
message also carries audio, since interruption handling runs after audio
scheduling); the next segment scheduled at any clock time `t ≥ 0` therefore
starts at `max(t, 0) = t`. -/
theorem interruption_resets (s : LiveState) (now : ℚ) (m : ServerMessage)
    (hact : s.isSessionActive = true) (hint : m.interrupted = true) :
    (onServerMessage s now m).nextStartTime = 0 ∧
    (onServerMessage s now m).isAITalking = false ∧
    (∀ t : ℚ, 0 ≤ t → schedStart t (onServerMessage s now m).nextStartTime = t) := by
  obtain ⟨ad, intr, ot, it⟩ := m
  simp only at hint
  subst hint
  have hmain : (onServerMessage s now ⟨ad, true, ot, it⟩).nextStartTime = 0 ∧
      (onServerMessage s now ⟨ad, true, ot, it⟩).isAITalking = false := by
    unfold onServerMessage
    cases ad <;> cases ot <;> cases it <;>
      by_cases hac : s.audioContext = true <;> simp [hact, hac]
  refine ⟨hmain.1, hmain.2, fun t ht => ?_⟩
  rw [hmain.1]
  unfold schedStart
  exact max_eq_left ht

/-- Witness for C2: an active state with queued playback receives an
interrupted message that also carries audio. -/
theorem interruption_resets_witness :
    ({ openState with nextStartTime := 7, isAITalking := true } : LiveState).isSessionActive = true ∧
    (ServerMessage.mk (some 2) true none none).interrupted = true ∧
    ((onServerMessage { openState with nextStartTime := 7, isAITalking := true } 3
        ⟨some 2, true, none, none⟩).nextStartTime = 0 ∧
     (onServerMessage { openState with nextStartTime := 7, isAITalking := true } 3
        ⟨some 2, true, none, none⟩).isAITalking = false ∧
     (∀ t : ℚ, 0 ≤ t →
       schedStart t (onServerMessage { openState with nextStartTime := 7, isAITalking := true } 3
          ⟨some 2, true, none, none⟩).nextStartTime = t)) :=
  ⟨rfl, rfl, interruption_resets _ 3 _ rfl rfl⟩

/-- A quiet event (frame below the RMS threshold, or the decay timeout due
strictly later) preserves `isUserTalking = true` and the pending deadline. -/
lemma quiet_step_preserve (s : LiveState) (dl : ℚ) (e : LiveEv)
    (hq : quietBefore dl e) (ht : s.isUserTalking = true)
    (hd : s.userTalkingDeadline = some dl) :
    (liveStep s e).isUserTalking = true ∧
    (liveStep s e).userTalkingDeadline = some dl := by
  cases e with
  | frame t xs ok =>
    simp only [quietBefore] at hq
    unfold liveStep onAudioFrame
    simp only [hq]
    split_ifs <;> simp_all
  | tick u =>
    simp only [quietBefore] at hq
    unfold liveStep tickUserTalking
    simp [hd, not_le.mpr hq, ht]

/-- Running any list of quiet events preserves `isUserTalking = true` and
the pending deadline. -/
lemma quiet_run_preserve (dl : ℚ) (evs : List LiveEv)
    (h : ∀ e ∈ evs, quietBefore dl e) (s : LiveState)
    (ht : s.isUserTalking = true) (hd : s.userTalkingDeadline = some dl) :
    (liveRun s evs).isUserTalking = true ∧
    (liveRun s evs).userTalkingDeadline = some dl := by
  induction evs generalizing s with
  | nil => exact ⟨ht, hd⟩
  | cons e es ih =>
    have hstep := quiet_step_preserve s dl e (h e (List.mem_cons_self e es)) ht hd
    have hrec := ih (fun e' he' => h e' (List.mem_cons_of_mem e he'))
      (liveStep s e) hstep.1 hstep.2
    simpa [liveRun, List.foldl_cons] using hrec

/-- C5: a frame whose RMS exceeds the threshold immediately sets
`isUserTalking = true` and (re)starts the 500 ms decay deadline at
`t + 500`; along any further events that contain no qualifying frame and no
timeout firing before `t + 500`, `isUserTalking` stays true (it never turns
false before 500 ms elapse), and the pending timeout firing at any
`u ≥ t + 500` turns it false. -/
theorem talk_activity_decay (s : LiveState) (t : ℚ) (xs : List ℚ) (ok : Bool)
    (hat : s.workletHandlerAttached = true) (hsess : s.hasSession = true)
    (hact : s.isSessionActive = true) (hq : qualifies xs = true) :
    (onAudioFrame s t xs ok).1.isUserTalking = true ∧
    (onAudioFrame s t xs ok).1.userTalkingDeadline = some (t + 500) ∧
    (∀ evs : List LiveEv, (∀ e ∈ evs, quietBefore (t + 500) e) →
      (liveRun (onAudioFrame s t xs ok).1 evs).isUserTalking = true) ∧
    (∀ u : ℚ, t + 500 ≤ u →
      (tickUserTalking (onAudioFrame s t xs ok).1 u).isUserTalking = false) := by
  have h1 : (onAudioFrame s t xs ok).1.isUserTalking = true ∧
      (onAudioFrame s t xs ok).1.userTalkingDeadline = some (t + 500) := by
    unfold onAudioFrame
    simp only [hat, hsess, hact, hq]
    split_ifs <;> simp_all
  refine ⟨h1.1, h1.2,
    fun evs hevs => (quiet_run_preserve (t + 500) evs hevs _ h1.1 h1.2).1,
    fun u hu => ?_⟩
  unfold tickUserTalking
  simp [h1.2, hu]

/-- Witness for C5: a loud one-sample frame at the open state, at time 0. -/
theorem talk_activity_decay_witness :
    openState.workletHandlerAttached = true ∧ openState.hasSession = true ∧
    openState.isSessionActive = true ∧ qualifies [1] = true ∧
    ((onAudioFrame openState 0 [1] true).1.isUserTalking = true ∧
     (onAudioFrame openState 0 [1] true).1.userTalkingDeadline = some (0 + 500) ∧
     (∀ evs : List LiveEv, (∀ e ∈ evs, quietBefore (0 + 500) e) →
       (liveRun (onAudioFrame openState 0 [1] true).1 evs).isUserTalking = true) ∧
     (∀ u : ℚ, 0 + 500 ≤ u →
       (tickUserTalking (onAudioFrame openState 0 [1] true).1 u).isUserTalking = false)) :=
  ⟨rfl, rfl, rfl, qualifies_loud,
   talk_activity_decay openState 0 [1] true rfl rfl rfl qualifies_loud⟩

/-- Every scheduled segment starts no earlier than the free time the batch
started from. -/
lemma scheduleAll_start_ge :
    ∀ (cs : List (ℚ × ℚ)) (nf : ℚ), (∀ c ∈ cs, 0 ≤ c.2) →
      ∀ p ∈ scheduleAll nf cs, nf ≤ p.1 := by
  intro cs
  induction cs with
  | nil => intro nf _ p hp; simp [scheduleAll] at hp
  | cons c rest ih =>
    obtain ⟨t, d⟩ := c
    intro nf hd p hp
    simp only [scheduleAll, List.mem_cons] at hp
    rcases hp with rfl | hp
    · exact le_max_right t nf
    · have hd0 : (0 : ℚ) ≤ d := hd (t, d) (List.mem_cons_self _ _)
      have hrest : ∀ x ∈ rest, 0 ≤ x.2 := fun x hx => hd x (List.mem_cons_of_mem _ hx)
      have hih := ih (schedStart t nf + d) hrest p hp
      have hnf : nf ≤ schedStart t nf + d := by
        have := le_max_right t nf
        unfold schedStart
        linarith
      linarith

/-- No two scheduled segments overlap: each earlier segment ends no later
than any later one starts. -/
lemma scheduleAll_pairwise :
    ∀ (cs : List (ℚ × ℚ)) (nf : ℚ), (∀ c ∈ cs, 0 ≤ c.2) →
      (scheduleAll nf cs).Pairwise (fun a b => a.1 + a.2 ≤ b.1) := by
  intro cs
  induction cs with
  | nil => intro nf _; simp [scheduleAll]
  | cons c rest ih =>
    obtain ⟨t, d⟩ := c
    intro nf hd
    have hrest : ∀ x ∈ rest, 0 ≤ x.2 := fun x hx => hd x (List.mem_cons_of_mem _ hx)
    simp only [scheduleAll]
    rw [List.pairwise_cons]
    refine ⟨fun b hb => ?_, ih (schedStart t nf + d) hrest⟩
    simpa using scheduleAll_start_ge rest (schedStart t nf + d) hrest b hb

/-- The `i`-th scheduled segment starts at `max` of the `i`-th chunk's
arrival clock and the free time after the first `i` chunks, and keeps the
chunk's duration. -/
lemma scheduleAll_getElem :
    ∀ (cs : List (ℚ × ℚ)) (nf : ℚ) (i : ℕ) (c : ℚ × ℚ), cs[i]? = some c →
      (scheduleAll nf cs)[i]? = some (schedStart c.1 (nfAfter nf (cs.take i)), c.2) := by
  intro cs
  induction cs with
  | nil => intro nf i c h; simp at h
  | cons a rest ih =>
    obtain ⟨t, d⟩ := a
    intro nf i c h
    cases i with
    | zero =>
      simp only [List.getElem?_cons_zero, Option.some.injEq] at h
      subst h
      simp [scheduleAll, nfAfter]
    | succ j =>
      simp only [List.getElem?_cons_succ] at h
      simp only [scheduleAll, List.getElem?_cons_succ, List.take_succ_cons, nfAfter]
      exact ih (schedStart t nf + d) j c h

/-- The free time advances to `start + duration` when the `i`-th chunk is
scheduled. -/
lemma nfAfter_take_succ :
    ∀ (cs : List (ℚ × ℚ)) (nf : ℚ) (i : ℕ) (c : ℚ × ℚ), cs[i]? = some c →
      nfAfter nf (cs.take (i + 1)) = schedStart c.1 (nfAfter nf (cs.take i)) + c.2 := by
  intro cs
  induction cs with
  | nil => intro nf i c h; simp at h
  | cons a rest ih =>
    obtain ⟨t, d⟩ := a
    intro nf i c h
    cases i with
    | zero =>
      simp only [List.getElem?_cons_zero, Option.some.injEq] at h
      subst h
      simp [nfAfter]
    | succ j =>
      simp only [List.getElem?_cons_succ] at h
      simp only [List.take_succ_cons, nfAfter]
      exact ih (schedStart t nf + d) j c h

/-- When chunk `i+1` arrives no later than segment `i` ends, segment `i+1`
starts exactly where segment `i` ends. -/
lemma scheduleAll_adjacent (nf : ℚ) (cs : List (ℚ × ℚ)) (i : ℕ) (a b c : ℚ × ℚ)
    (hc : cs[i + 1]? = some c) (ha : (scheduleAll nf cs)[i]? = some a)
    (hb : (scheduleAll nf cs)[i + 1]? = some b) (harr : c.1 ≤ a.1 + a.2) :
    b.1 = a.1 + a.2 := by
  have hlen : i + 1 < cs.length := by
    by_contra hcon
    push_neg at hcon
    rw [List.getElem?_eq_none hcon] at hc
    exact Option.noConfusion hc
  have hi : i < cs.length := Nat.lt_of_succ_lt hlen
  have hci : cs[i]? = some (cs.get ⟨i, hi⟩) := by
    simp [List.getElem?_eq_getElem hi]
  have hA := scheduleAll_getElem cs nf i (cs.get ⟨i, hi⟩) hci
  have hB := scheduleAll_getElem cs nf (i + 1) c hc
  have hN := nfAfter_take_succ cs nf i (cs.get ⟨i, hi⟩) hci
  rw [hA] at ha
  rw [hB] at hb
  have haeq := Option.some.inj ha
  have hbeq := Option.some.inj hb
  have hend : a.1 + a.2 = nfAfter nf (cs.take (i + 1)) := by
    rw [← haeq, hN]
  have hb1 : b.1 = schedStart c.1 (nfAfter nf (cs.take (i + 1))) := by
    rw [← hbeq]
  rw [hb1, ← hend]
  unfold schedStart
  exact max_eq_right harr

/-- C1: scheduling a sequence of inbound chunks with no interruption gives
segment `i` start `max(arrival clock, nextFreeTime)` with `nextFreeTime`
advanced to `start + duration` immediately; whenever chunk `i+1` arrives
before the clock passes the free time, segment `i+1` starts exactly where
segment `i` ends; and (for nonnegative durations) no two segments overlap. -/
theorem playback_timeline (nf : ℚ) (cs : List (ℚ × ℚ))
    (hd : ∀ c ∈ cs, 0 ≤ c.2) :
    (∀ (i : ℕ) (c : ℚ × ℚ), cs[i]? = some c →
       (scheduleAll nf cs)[i]? = some (schedStart c.1 (nfAfter nf (cs.take i)), c.2)) ∧
    (∀ (i : ℕ) (c : ℚ × ℚ), cs[i]? = some c →
       nfAfter nf (cs.take (i + 1)) = schedStart c.1 (nfAfter nf (cs.take i)) + c.2) ∧
    (∀ (i : ℕ) (a b c : ℚ × ℚ), cs[i + 1]? = some c →
       (scheduleAll nf cs)[i]? = some a → (scheduleAll nf cs)[i + 1]? = some b →
       c.1 ≤ a.1 + a.2 → b.1 = a.1 + a.2) ∧
    (scheduleAll nf cs).Pairwise (fun a b => a.1 + a.2 ≤ b.1) :=
  ⟨fun i c h => scheduleAll_getElem cs nf i c h,
   fun i c h => nfAfter_take_succ cs nf i c h,
   fun i a b c hc ha hb harr => scheduleAll_adjacent nf cs i a b c hc ha hb harr,
   scheduleAll_pairwise cs nf hd⟩

/-- Witness for C1 at three concrete chunks of durations 2, 3, 1. -/
theorem playback_timeline_witness :
    (∀ c ∈ [((0 : ℚ), (2 : ℚ)), (1, 3), (5, 1)], 0 ≤ c.2) ∧
    ((∀ (i : ℕ) (c : ℚ × ℚ), [((0 : ℚ), (2 : ℚ)), (1, 3), (5, 1)][i]? = some c →
        (scheduleAll 0 [((0 : ℚ), (2 : ℚ)), (1, 3), (5, 1)])[i]? =
          some (schedStart c.1 (nfAfter 0 ([((0 : ℚ), (2 : ℚ)), (1, 3), (5, 1)].take i)), c.2)) ∧
     (∀ (i : ℕ) (c : ℚ × ℚ), [((0 : ℚ), (2 : ℚ)), (1, 3), (5, 1)][i]? = some c →
        nfAfter 0 ([((0 : ℚ), (2 : ℚ)), (1, 3), (5, 1)].take (i + 1)) =
          schedStart c.1 (nfAfter 0 ([((0 : ℚ), (2 : ℚ)), (1, 3), (5, 1)].take i)) + c.2) ∧
     (∀ (i : ℕ) (a b c : ℚ × ℚ), [((0 : ℚ), (2 : ℚ)), (1, 3), (5, 1)][i + 1]? = some c →
        (scheduleAll 0 [((0 : ℚ), (2 : ℚ)), (1, 3), (5, 1)])[i]? = some a →
        (scheduleAll 0 [((0 : ℚ), (2 : ℚ)), (1, 3), (5, 1)])[i + 1]? = some b →
        c.1 ≤ a.1 + a.2 → b.1 = a.1 + a.2) ∧
     (scheduleAll 0 [((0 : ℚ), (2 : ℚ)), (1, 3), (5, 1)]).Pairwise
       (fun a b => a.1 + a.2 ≤ b.1)) :=
  have hd : ∀ c ∈ [((0 : ℚ), (2 : ℚ)), (1, 3), (5, 1)], 0 ≤ c.2 := by
    intro c hc
    simp only [List.mem_cons, List.not_mem_nil, or_false] at hc
    rcases hc with rfl | rfl | rfl <;> norm_num
  ⟨hd, playback_timeline 0 [((0 : ℚ), (2 : ℚ)), (1, 3), (5, 1)] hd⟩

end LiveAPI
